import Mathlib

/-!
Shallow embedding of the SpeedTest monitor (speedtest_monitor.py, myspeedtest.py,
speedtest_gui.py) and proofs about its measurement-cycle, rolling-history and
persistence behaviour.

Numbers that Python holds as floats are modelled as rationals; Python's
`repr`/`str` round-trip for floats is exact, so serialisation of a numeric cell
is modelled as storing the value itself.
-/

namespace SpeedTest

/-- Identifying metadata of the probe endpoint, as embedded in each record
(`server['host']`, `server['name']`, `server['country']`, `server['sponsor']`). -/
structure Server where
  host : String
  name : String
  country : String
  sponsor : String
deriving DecidableEq

/-- The `data` dictionary built in `SpeedTestMonitor.run_speed_test`
(speedtest_monitor.py lines 142-151): one completed probe result. -/
structure Measurement where
  timestamp : String
  download_speed : ℚ
  upload_speed : ℚ
  ping : ℚ
  server : Server
deriving DecidableEq

/-- `MAX_POINTS = 50` (speedtest_monitor.py line 45). -/
def MAX_POINTS : ℕ := 50

/-- The suffix of `xs` of length at most `n`: the `n` most recent elements. -/
def lastN (n : ℕ) (xs : List α) : List α := xs.drop (xs.length - n)

/-- Python `collections.deque(maxlen := m).append x`: append on the right,
dropping from the left whatever exceeds the capacity. -/
def dequeAppend (maxlen : ℕ) (d : List α) (x : α) : List α :=
  let d' := d ++ [x]
  if maxlen < d'.length then d'.drop (d'.length - maxlen) else d'

/-- Python `deque.extend`: repeated `append`, each honouring the capacity. -/
def dequeExtend (maxlen : ℕ) (d : List α) (xs : List α) : List α :=
  xs.foldl (dequeAppend maxlen) d

theorem lastN_length (n : ℕ) (xs : List α) :
    (lastN n xs).length = min xs.length n := by
  simp only [lastN, List.length_drop]
  omega

theorem lastN_of_le (n : ℕ) (xs : List α) (h : xs.length ≤ n) :
    lastN n xs = xs := by
  simp [lastN, Nat.sub_eq_zero_of_le h]

theorem dequeAppend_lastN (m : ℕ) (xs : List α) (x : α) :
    dequeAppend m (lastN m xs) x = lastN m (xs ++ [x]) := by
  rcases Nat.eq_zero_or_pos m with hm0 | hmpos
  · subst hm0
    simp [dequeAppend, lastN, List.drop_eq_nil_of_le]
  unfold dequeAppend lastN
  simp only [List.length_append, List.length_drop, List.length_singleton]
  rcases Nat.lt_or_ge xs.length m with hlt | hge
  · rw [Nat.sub_eq_zero_of_le (Nat.le_of_lt hlt)]
    simp only [Nat.sub_zero, List.drop_zero]
    rw [if_neg (by omega), Nat.sub_eq_zero_of_le hlt, List.drop_zero]
  · have hmin : xs.length - (xs.length - m) = m := by omega
    rw [hmin, if_pos (Nat.lt_succ_self m)]
    have h2 : m + 1 - m = 1 := by omega
    rw [h2,
      List.drop_append_of_le_length
        (show 1 ≤ (xs.drop (xs.length - m)).length by
          simp only [List.length_drop]; omega),
      List.drop_drop,
      List.drop_append_of_le_length (show xs.length + 1 - m ≤ xs.length by omega)]
    congr 2
    omega

theorem dequeExtend_lastN (m : ℕ) (xs : List α) :
    dequeExtend m [] xs = lastN m xs := by
  induction xs using List.reverseRecOn with
  | nil => simp [dequeExtend, lastN]
  | append_singleton ys y ih =>
      unfold dequeExtend at ih ⊢
      rw [List.foldl_append, List.foldl_cons, List.foldl_nil, ih,
        dequeAppend_lastN]

/-- FIFO eviction: appending to a full deque drops exactly the oldest element. -/
theorem dequeAppend_full (d : List α) (x : α) (h : d.length = MAX_POINTS) :
    dequeAppend MAX_POINTS d x = d.tail ++ [x] := by
  have h' : d.length = 50 := h
  unfold dequeAppend
  simp only [List.length_append, List.length_singleton, h]
  rw [if_pos (Nat.lt_succ_self _)]
  have h2 : MAX_POINTS + 1 - MAX_POINTS = 1 := by omega
  rw [h2, List.drop_append_of_le_length (by omega), List.drop_one]

theorem dequeAppend_not_full (d : List α) (x : α) (h : d.length < MAX_POINTS) :
    dequeAppend MAX_POINTS d x = d ++ [x] := by
  unfold dequeAppend
  simp only [List.length_append, List.length_singleton]
  rw [if_neg (by omega)]

/-- One cell row of the tabular sink. `header` is the fixed eight-name header
row written by `initialize_output_files`; `data` is one appended result row.
Python float-to-text serialisation round-trips exactly, so a data row stores
the field values themselves. -/
structure CsvData where
  timestamp : String
  download : ℚ
  upload : ℚ
  ping : ℚ
  host : String
  name : String
  country : String
  sponsor : String
deriving DecidableEq

inductive CsvRow where
  | header : CsvRow
  | data : CsvData → CsvRow
deriving DecidableEq

/-- One record of the structured sink, as built in `save_to_json`
(speedtest_monitor.py lines 202-213). -/
structure JsonRecord where
  timestamp : String
  download_speed : ℚ
  upload_speed : ℚ
  ping : ℚ
  server : Server
deriving DecidableEq

/-- The structured sink document: top-level key `speed_tests` holding an
ordered list of records. -/
structure JsonDoc where
  speed_tests : List JsonRecord
deriving DecidableEq

/-- Round a rational to the nearest integer, ties to even — the tie-breaking
rule of Python's built-in `round`. -/
def roundHalfEven (q : ℚ) : ℤ :=
  if q - ⌊q⌋ < 1/2 then ⌊q⌋
  else if 1/2 < q - ⌊q⌋ then ⌊q⌋ + 1
  else if ⌊q⌋ % 2 = 0 then ⌊q⌋ else ⌊q⌋ + 1

/-- Python `round(q, n)`: round to `n` decimal places, ties to even. -/
def pyRound (n : ℕ) (q : ℚ) : ℚ := (roundHalfEven (q * 10 ^ n) : ℚ) / 10 ^ n

/-- Configuration handed to `SpeedTestMonitor.__init__`. -/
structure Config where
  server_id : Option Int
  interval_minutes : Int
  output_formats : List String
deriving DecidableEq

/-- The mutable state owned by one `SpeedTestMonitor` instance: the four
parallel rolling deques (each `deque(maxlen = MAX_POINTS)`) and the two sink
files, where `none` models a file that does not exist on disk. -/
structure MonitorState where
  timestamps : List String
  download_speeds : List ℚ
  upload_speeds : List ℚ
  pings : List ℚ
  csv_file : Option (List CsvRow)
  json_file : Option JsonDoc
deriving DecidableEq

def emptyState : MonitorState :=
  { timestamps := [], download_speeds := [], upload_speeds := [], pings := []
    csv_file := none, json_file := none }

/-- Observable effects of one measurement cycle, in program order. -/
inductive Event where
  | resolveCall
  | historyAppend
  | csvWrite
  | csvError
  | jsonWrite
  | jsonError
  | cycleError
deriving DecidableEq

/-- The environment one call of `run_speed_test` sees: the outcome of endpoint
resolution (`get_servers` plus either the explicit-ID lookup or
`get_best_server`; `none` means that step raised or the ID was not found), the
outcome of the probe (`st.download()`, `st.upload()`, `st.results.ping`;
`none` means one of those calls raised), the wall-clock timestamps, and
whether each sink's file I/O raises. -/
structure CycleEnv where
  resolution : Option Server
  probe : Option (ℚ × ℚ × ℚ)
  now : String
  nowMinute : String
  csvIOFails : Bool
  jsonIOFails : Bool
deriving DecidableEq

/-- The tabular row written for one result (speedtest_monitor.py lines
178-187): raw (unrounded) values in the fixed column order. -/
def csvRowOf (data : Measurement) : CsvData :=
  { timestamp := data.timestamp, download := data.download_speed
    upload := data.upload_speed, ping := data.ping
    host := data.server.host, name := data.server.name
    country := data.server.country, sponsor := data.server.sponsor }

/-- `SpeedTestMonitor.save_to_csv` (lines 173-189): open the tabular file for
append (creating it when absent) and write one data row; any exception is
caught and logged inside this function. -/
def save_to_csv (env : CycleEnv) (data : Measurement) (s : MonitorState) :
    MonitorState × List Event :=
  if env.csvIOFails then (s, [Event.csvError])
  else
    match s.csv_file with
    | some rows =>
        ({ s with csv_file := some (rows ++ [CsvRow.data (csvRowOf data)]) },
          [Event.csvWrite])
    | none => ({ s with csv_file := some [CsvRow.data (csvRowOf data)] }, [Event.csvWrite])

/-- The record appended by `save_to_json`: speeds rounded to 2 decimals, ping
to 1 decimal, server metadata copied verbatim (lines 202-213). -/
def jsonRecordOf (data : Measurement) : JsonRecord :=
  { timestamp := data.timestamp
    download_speed := pyRound 2 data.download_speed
    upload_speed := pyRound 2 data.upload_speed
    ping := pyRound 1 data.ping
    server := data.server }

/-- `SpeedTestMonitor.save_to_json` (lines 191-220): read the whole document
(skeleton when the file is absent), append one record, rewrite the document;
any exception is caught and logged inside this function. -/
def save_to_json (env : CycleEnv) (data : Measurement) (s : MonitorState) :
    MonitorState × List Event :=
  if env.jsonIOFails then (s, [Event.jsonError])
  else
    let doc := (s.json_file).getD { speed_tests := [] }
    ({ s with json_file := some { speed_tests := doc.speed_tests ++ [jsonRecordOf data] } },
      [Event.jsonWrite])

/-- `SpeedTestMonitor.save_results` (lines 163-171): write to each active
sink in turn. The sink writers swallow their own exceptions, so the outer
try/except here is unreachable and a failure in one sink never stops the
other. -/
def save_results (cfg : Config) (env : CycleEnv) (data : Measurement)
    (s : MonitorState) : MonitorState × List Event :=
  let r1 := if "csv" ∈ cfg.output_formats then save_to_csv env data s else (s, [])
  let r2 := if "json" ∈ cfg.output_formats then save_to_json env data r1.1 else (r1.1, [])
  (r2.1, r1.2 ++ r2.2)

/-- The body of the try block of `SpeedTestMonitor.run_speed_test`
(lines 108-157): resolve an endpoint, probe, append to the four rolling
deques, build the data record, persist it. A `throw` models an exception
propagating out of the block; state writes occur only after both fallible
steps have succeeded, matching the source order. -/
def run_speed_test_body (cfg : Config) (env : CycleEnv) (s : MonitorState) :
    Except String (MonitorState × List Event) :=
  match env.resolution with
  | none => Except.error "endpoint resolution failed"
  | some server =>
      match env.probe with
      | none => Except.error "probe failed"
      | some p =>
          let download_speed := p.1 / 1000000
          let upload_speed := p.2.1 / 1000000
          let ping := p.2.2
          let s1 := { s with
            timestamps := dequeAppend MAX_POINTS s.timestamps env.now
            download_speeds := dequeAppend MAX_POINTS s.download_speeds download_speed
            upload_speeds := dequeAppend MAX_POINTS s.upload_speeds upload_speed
            pings := dequeAppend MAX_POINTS s.pings ping }
          let data : Measurement :=
            { timestamp := env.nowMinute, download_speed := download_speed
              upload_speed := upload_speed, ping := ping, server := server }
          let r := save_results cfg env data s1
          Except.ok (r.1, [Event.resolveCall, Event.historyAppend] ++ r.2)

/-- `SpeedTestMonitor.run_speed_test` (lines 106-161): the whole body is
wrapped in try/except; every exception is caught, logged, and turned into the
return value `False`. The function is total — it never propagates an
exception to its caller. -/
def run_speed_test (cfg : Config) (env : CycleEnv) (s : MonitorState) :
    Bool × MonitorState × List Event :=
  match run_speed_test_body cfg env s with
  | Except.ok r => (true, r.1, r.2)
  | Except.error _ => (false, s, [Event.resolveCall, Event.cycleError])

/-- `SpeedTestMonitor.run_scheduler` (lines 269-274): the loop observes a
sequence of due ticks (`schedule.run_pending` runs the job synchronously on
this thread once per elapsed interval) and runs `run_speed_test` for each.
The list of tick environments stands for the ticks the loop serves before
`running` is cleared; the loop never exits early on a failed cycle. -/
def run_scheduler (cfg : Config) (envs : List CycleEnv) (s : MonitorState) :
    MonitorState × List Bool :=
  match envs with
  | [] => (s, [])
  | env :: rest =>
      let r := run_speed_test cfg env s
      let rec' := run_scheduler cfg rest r.2.1
      (rec'.1, r.1 :: rec'.2)

/-- `SpeedTestMonitor.initialize_output_files` (lines 79-104): write the
header (resp. the `{'speed_tests': []}` skeleton) only when the requested
sink's file does not exist; an existing file is left untouched. -/
def initialize_output_files (cfg : Config) (s : MonitorState) : MonitorState :=
  let s1 :=
    if "csv" ∈ cfg.output_formats ∧ s.csv_file = none
    then { s with csv_file := some [CsvRow.header] } else s
  if "json" ∈ cfg.output_formats ∧ s1.json_file = none
  then { s1 with json_file := some { speed_tests := [] } } else s1

/-- myspeedtest.py `main` (lines 193-208): `open(..., 'x')` writes the header
only when the file does not exist; `FileExistsError` is swallowed, leaving an
existing file untouched. -/
def myspeedtest_init_csv (f : Option (List CsvRow)) : Option (List CsvRow) :=
  match f with
  | none => some [CsvRow.header]
  | some rows => some rows

def csvDataOf : CsvRow → Option CsvData
  | CsvRow.header => none
  | CsvRow.data d => some d

/-- `pd.read_csv`: the first physical row of the file is taken as the header;
the remaining well-formed rows are the data frame. -/
def read_csv_df (rows : List CsvRow) : List CsvData :=
  (rows.drop 1).filterMap csvDataOf

/-- `SpeedTestMonitor.load_existing_data` (lines 222-238): when the tabular
file exists and its data frame is non-empty, extend the four deques with the
last `MAX_POINTS` rows' Timestamp, Download, Upload and Ping columns. Only
the tabular sink is read, and only those four columns — the server columns
and the structured sink are never loaded. -/
def load_existing_data (s : MonitorState) : MonitorState :=
  match s.csv_file with
  | none => s
  | some rows =>
      let df := read_csv_df rows
      if df = [] then s
      else
        let recent := lastN MAX_POINTS df
        { s with
          timestamps := dequeExtend MAX_POINTS s.timestamps (recent.map CsvData.timestamp)
          download_speeds := dequeExtend MAX_POINTS s.download_speeds (recent.map CsvData.download)
          upload_speeds := dequeExtend MAX_POINTS s.upload_speeds (recent.map CsvData.upload)
          pings := dequeExtend MAX_POINTS s.pings (recent.map CsvData.ping) }

/-- `SpeedTestMonitor.__init__` (lines 18-52, with `main` lines 304-312):
store the configuration (formats lower-cased), create the empty deques,
ensure the output files exist, hydrate from disk. `ioFails` models an
exception from `initialize_output_files`, which `__init__` re-raises (the
only way construction can fail). No validation of the interval or of the
format list is performed anywhere. -/
def speedTestMonitorInit (server_id : Option Int) (interval_minutes : Int)
    (output_formats : List String) (ioFails : Bool)
    (csvOnDisk : Option (List CsvRow)) (jsonOnDisk : Option JsonDoc) :
    Except String (Config × MonitorState) :=
  let cfg : Config :=
    { server_id := server_id, interval_minutes := interval_minutes
      output_formats := output_formats.map String.toLower }
  let s0 : MonitorState :=
    { timestamps := [], download_speeds := [], upload_speeds := [], pings := []
      csv_file := csvOnDisk, json_file := jsonOnDisk }
  if ioFails then Except.error "Error initializing output files"
  else Except.ok (cfg, load_existing_data (initialize_output_files cfg s0))

/-- Result of the GUI's server-list loading (speedtest_gui.py `load_servers`,
lines 184-242): how many times `_load` ran, the delay scheduled before each
retry (`root.after(5000, _load)`), and whether it ended in success. -/
structure LoadResult where
  attempts : ℕ
  delaysMs : List ℕ
  success : Bool
deriving DecidableEq

/-- The retry loop of `SpeedTestGUI.load_servers`: attempt `k` succeeds when
`outcome k` is true; on failure with `retry_count < max_retries` the routine
increments `retry_count` and reschedules itself 5000 ms later, otherwise it
reports the error and stops. -/
def load_servers_go (outcome : ℕ → Bool) (max_retries : ℕ) (k rc : ℕ) :
    LoadResult :=
  if outcome k then { attempts := 1, delaysMs := [], success := true }
  else if h : rc < max_retries then
    let r := load_servers_go outcome max_retries (k + 1) (rc + 1)
    { attempts := r.attempts + 1, delaysMs := 5000 :: r.delaysMs
      success := r.success }
  else { attempts := 1, delaysMs := [], success := false }
termination_by max_retries - rc

/-- `SpeedTestGUI.load_servers` entered with a fresh `retry_count`, as after
`refresh_servers` resets it to 0 (`max_retries = 3` in `__init__`). -/
def load_servers (outcome : ℕ → Bool) : LoadResult :=
  load_servers_go outcome 3 0 0

/-- Phase of the thread that called `start()`: it runs the initial
`run_speed_test` itself (line 283) after launching the scheduler thread
(line 280), then moves on to the blocking plot loop. -/
inductive MainPhase where
  | notStarted : MainPhase
  | probing : ℕ → MainPhase
  | done : MainPhase
deriving DecidableEq

/-- Phase of the scheduler thread: `schedule.run_pending` executes the due
job synchronously on that thread, so it is either idle or inside one
`run_speed_test` call. -/
inductive SchedPhase where
  | idle : SchedPhase
  | probing : ℕ → SchedPhase
deriving DecidableEq

/-- Interleaving state of one monitor session after `start()`: wall-clock
time in seconds, the two thread phases (each `probing t` carries the time its
current probe call will return), and the job's `next_run` time maintained by
the `schedule` library. -/
structure SessionState where
  now : ℕ
  mainPhase : MainPhase
  schedPhase : SchedPhase
  nextRun : ℕ
deriving DecidableEq

/-- State at `start()`: nothing in flight; the job registered by
`schedule.every(interval).minutes` first becomes due one interval from now. -/
def initSession (intervalSec : ℕ) : SessionState :=
  { now := 0, mainPhase := MainPhase.notStarted, schedPhase := SchedPhase.idle
    nextRun := intervalSec }

/-- Interleaving semantics of a running session. The probe duration `d` of
each run is chosen by the environment (the probe is an opaque blocking
network call of unbounded duration). `schedFire` needs only `nextRun ≤ now`
and an idle scheduler thread — nothing in the code consults the main
thread's phase, as there is no lock or single-flight guard. On completion
the `schedule` library sets `next_run` one interval after the run finished. -/
inductive SessionStep (intervalSec : ℕ) : SessionState → SessionState → Prop where
  | tick (s : SessionState) :
      SessionStep intervalSec s { s with now := s.now + 1 }
  | mainStart (s : SessionState) (d : ℕ) :
      s.mainPhase = MainPhase.notStarted →
      SessionStep intervalSec s { s with mainPhase := MainPhase.probing (s.now + d) }
  | mainFinish (s : SessionState) (t : ℕ) :
      s.mainPhase = MainPhase.probing t → t ≤ s.now →
      SessionStep intervalSec s { s with mainPhase := MainPhase.done }
  | schedFire (s : SessionState) (d : ℕ) :
      s.schedPhase = SchedPhase.idle → s.nextRun ≤ s.now →
      SessionStep intervalSec s { s with schedPhase := SchedPhase.probing (s.now + d) }
  | schedFinish (s : SessionState) (t : ℕ) :
      s.schedPhase = SchedPhase.probing t → t ≤ s.now →
      SessionStep intervalSec s
        { s with schedPhase := SchedPhase.idle, nextRun := s.now + intervalSec }

def SessionReachable (intervalSec : ℕ) : SessionState → SessionState → Prop :=
  Relation.ReflTransGen (SessionStep intervalSec)

/-- A measurement is in flight on the main thread. -/
def mainInFlight (s : SessionState) : Prop := ∃ t, s.mainPhase = MainPhase.probing t

/-- A measurement is in flight on the scheduler thread. -/
def schedInFlight (s : SessionState) : Prop := ∃ t, s.schedPhase = SchedPhase.probing t

/-- Two measurements are in flight at once. -/
def twoInFlight (s : SessionState) : Prop := mainInFlight s ∧ schedInFlight s

theorem sessionReachable_tickN (i : ℕ) (s : SessionState) (n : ℕ) :
    SessionReachable i s { s with now := s.now + n } := by
  induction n with
  | zero => exact Relation.ReflTransGen.refl
  | succ k ih =>
      exact Relation.ReflTransGen.tail ih
        (SessionStep.tick { s with now := s.now + k })

theorem roundHalfEven_abs_le (q : ℚ) : |((roundHalfEven q : ℤ) : ℚ) - q| ≤ 1 / 2 := by
  have h0 : ((⌊q⌋ : ℤ) : ℚ) ≤ q := Int.floor_le q
  have h1 : q < ((⌊q⌋ : ℤ) : ℚ) + 1 := Int.lt_floor_add_one q
  unfold roundHalfEven
  split
  · next h => rw [abs_sub_comm, abs_of_nonneg (by linarith)]; linarith
  · next h =>
      split
      · next h2 => push_cast; rw [abs_of_nonneg (by linarith)]; linarith
      · next h2 =>
          have hfrac : q - ((⌊q⌋ : ℤ) : ℚ) = 1 / 2 :=
            le_antisymm (not_lt.mp h2) (not_lt.mp h)
          split
          · rw [abs_sub_comm, abs_of_nonneg (by linarith)]; linarith
          · push_cast; rw [abs_of_nonneg (by linarith)]; linarith

theorem pyRound_grid (n : ℕ) (q : ℚ) :
    pyRound n q * 10 ^ n = ((roundHalfEven (q * 10 ^ n) : ℤ) : ℚ) := by
  unfold pyRound
  field_simp

theorem pyRound_abs_le (n : ℕ) (q : ℚ) : |pyRound n q - q| ≤ 1 / (2 * 10 ^ n) := by
  have hpos : (0 : ℚ) < 10 ^ n := by positivity
  have key : pyRound n q - q =
      (((roundHalfEven (q * 10 ^ n) : ℤ) : ℚ) - q * 10 ^ n) / 10 ^ n := by
    unfold pyRound
    field_simp
    ring
  rw [key, abs_div, abs_of_pos hpos]
  calc |((roundHalfEven (q * 10 ^ n) : ℤ) : ℚ) - q * 10 ^ n| / 10 ^ n
      ≤ (1 / 2) / 10 ^ n := by
        gcongr
        exact roundHalfEven_abs_le (q * 10 ^ n)
    _ = 1 / (2 * 10 ^ n) := by ring

/-- The rolling history observed by the view: the contents of the four
parallel deques that `update_plot` reads. -/
def history (s : MonitorState) : List String × List ℚ × List ℚ × List ℚ :=
  (s.timestamps, s.download_speeds, s.upload_speeds, s.pings)

theorem save_to_csv_history (env : CycleEnv) (data : Measurement)
    (s : MonitorState) : history (save_to_csv env data s).1 = history s := by
  unfold save_to_csv
  split
  · rfl
  · rcases s.csv_file with _ | rows <;> rfl

theorem save_to_json_history (env : CycleEnv) (data : Measurement)
    (s : MonitorState) : history (save_to_json env data s).1 = history s := by
  unfold save_to_json
  split <;> rfl

theorem save_results_history (cfg : Config) (env : CycleEnv) (data : Measurement)
    (s : MonitorState) : history (save_results cfg env data s).1 = history s := by
  unfold save_results
  by_cases hc : "csv" ∈ cfg.output_formats <;>
    by_cases hj : "json" ∈ cfg.output_formats <;>
      simp only [hc, hj, if_pos, if_neg, not_false_iff] <;>
        simp [save_to_csv_history, save_to_json_history]

theorem save_results_no_history_event (cfg : Config) (env : CycleEnv)
    (data : Measurement) (s : MonitorState) :
    Event.historyAppend ∉ (save_results cfg env data s).2 := by
  unfold save_results save_to_csv save_to_json
  by_cases hc : "csv" ∈ cfg.output_formats <;>
    by_cases hj : "json" ∈ cfg.output_formats <;>
      simp only [hc, hj, if_pos, if_neg, not_false_iff] <;>
        cases env.csvIOFails <;> cases env.jsonIOFails <;>
          rcases s.csv_file with _ | rows <;> simp

/-- The per-cycle probe results converted to the stored units, defaulting to
zero for a cycle without probe data. -/
def cycleDownload (e : CycleEnv) : ℚ := (e.probe.getD (0, 0, 0)).1 / 1000000

def cycleUpload (e : CycleEnv) : ℚ := (e.probe.getD (0, 0, 0)).2.1 / 1000000

def cyclePing (e : CycleEnv) : ℚ := (e.probe.getD (0, 0, 0)).2.2

theorem run_speed_test_success (cfg : Config) (env : CycleEnv) (s : MonitorState)
    (srv : Server) (p : ℚ × ℚ × ℚ)
    (hres : env.resolution = some srv) (hprobe : env.probe = some p) :
    (run_speed_test cfg env s).1 = true ∧
    history (run_speed_test cfg env s).2.1 =
      (dequeAppend MAX_POINTS s.timestamps env.now,
       dequeAppend MAX_POINTS s.download_speeds (p.1 / 1000000),
       dequeAppend MAX_POINTS s.upload_speeds (p.2.1 / 1000000),
       dequeAppend MAX_POINTS s.pings p.2.2) := by
  unfold run_speed_test run_speed_test_body
  rw [hres, hprobe]
  exact ⟨rfl, save_results_history cfg env _ _⟩

theorem run_speed_test_failure (cfg : Config) (env : CycleEnv) (s : MonitorState)
    (hfail : env.resolution = none ∨ env.probe = none) :
    run_speed_test cfg env s = (false, s, [Event.resolveCall, Event.cycleError]) := by
  unfold run_speed_test run_speed_test_body
  rcases hfail with h | h
  · rw [h]
  · rw [h]
    cases env.resolution <;> rfl

theorem run_scheduler_length (cfg : Config) (envs : List CycleEnv)
    (s : MonitorState) : (run_scheduler cfg envs s).2.length = envs.length := by
  induction envs generalizing s with
  | nil => rfl
  | cons e rest ih => simp [run_scheduler, ih]

theorem run_scheduler_histories (cfg : Config) (envs : List CycleEnv)
    (s : MonitorState)
    (hok : ∀ e ∈ envs, e.resolution ≠ none ∧ e.probe ≠ none) :
    history (run_scheduler cfg envs s).1 =
      (dequeExtend MAX_POINTS s.timestamps (envs.map CycleEnv.now),
       dequeExtend MAX_POINTS s.download_speeds (envs.map cycleDownload),
       dequeExtend MAX_POINTS s.upload_speeds (envs.map cycleUpload),
       dequeExtend MAX_POINTS s.pings (envs.map cyclePing)) := by
  induction envs generalizing s with
  | nil => rfl
  | cons e rest ih =>
      obtain ⟨hres, hprobe⟩ := hok e (List.mem_cons_self e rest)
      obtain ⟨srv, hsrv⟩ := Option.ne_none_iff_exists'.mp hres
      obtain ⟨p, hp⟩ := Option.ne_none_iff_exists'.mp hprobe
      have hstep := run_speed_test_success cfg e s srv p hsrv hp
      have hrest : ∀ x ∈ rest, x.resolution ≠ none ∧ x.probe ≠ none :=
        fun x hx => hok x (List.mem_cons_of_mem e hx)
      unfold run_scheduler
      rw [ih _ hrest]
      have ht := congrArg Prod.fst hstep.2
      have hd := congrArg (Prod.fst ∘ Prod.snd) hstep.2
      have hu := congrArg (Prod.fst ∘ Prod.snd ∘ Prod.snd) hstep.2
      have hp' := congrArg (Prod.snd ∘ Prod.snd ∘ Prod.snd) hstep.2
      simp only [history, Function.comp] at ht hd hu hp'
      simp only [List.map_cons, dequeExtend, List.foldl_cons]
      rw [← dequeExtend, ← dequeExtend, ← dequeExtend, ← dequeExtend,
        ht, hd, hu, hp']
      simp [cycleDownload, cycleUpload, cyclePing, hp, dequeExtend]

/-! Concrete sample values used by witnesses and counterexamples. -/

def srvA : Server :=
  { host := "a.example", name := "Alpha", country := "SE", sponsor := "SpA" }

def srvB : Server :=
  { host := "b.example", name := "Alpha", country := "SE", sponsor := "SpA" }

def cfgBest : Config :=
  { server_id := none, interval_minutes := 10, output_formats := ["csv", "json"] }

def cfgJsonOnly : Config :=
  { server_id := none, interval_minutes := 10, output_formats := ["json"] }

def envOkA : CycleEnv :=
  { resolution := some srvA, probe := some (50000000, 20000000, 10)
    now := "2026-01-01 10:00:00", nowMinute := "2026-01-01 10:00"
    csvIOFails := false, jsonIOFails := false }

def envOkB : CycleEnv :=
  { resolution := some srvA, probe := some (55200000, 21000000, 12)
    now := "2026-01-01 10:10:00", nowMinute := "2026-01-01 10:10"
    csvIOFails := false, jsonIOFails := false }

def envResFail : CycleEnv :=
  { resolution := none, probe := none, now := "t", nowMinute := "t"
    csvIOFails := false, jsonIOFails := false }

def envProbeFail : CycleEnv :=
  { resolution := some srvA, probe := none, now := "t", nowMinute := "t"
    csvIOFails := false, jsonIOFails := false }

def envSinksFail : CycleEnv :=
  { resolution := some srvA, probe := some (1000000, 2000000, 3)
    now := "t", nowMinute := "t", csvIOFails := true, jsonIOFails := true }

def envWrite : CycleEnv :=
  { resolution := none, probe := none, now := "t", nowMinute := "t"
    csvIOFails := false, jsonIOFails := false }

def measA : Measurement :=
  { timestamp := "2026-01-01 10:00", download_speed := 50, upload_speed := 20
    ping := 10, server := srvA }

def measB : Measurement :=
  { timestamp := "2026-01-01 10:00", download_speed := 50, upload_speed := 20
    ping := 10, server := srvB }

/-! The claims. -/

/-- C1: for every sequence of N successful measurement cycles starting from an
empty rolling history with MAX_POINTS = 50, the history holds exactly the last
min(N, 50) results in chronological (insertion) order, its length is
min(N, 50), and once at capacity each append evicts exactly the oldest
entry (strict FIFO). -/
theorem C1_rolling_history_fifo (cfg : Config) (envs : List CycleEnv)
    (hok : ∀ e ∈ envs, e.resolution ≠ none ∧ e.probe ≠ none) :
    history (run_scheduler cfg envs emptyState).1 =
      (lastN MAX_POINTS (envs.map CycleEnv.now),
       lastN MAX_POINTS (envs.map cycleDownload),
       lastN MAX_POINTS (envs.map cycleUpload),
       lastN MAX_POINTS (envs.map cyclePing)) ∧
    ((run_scheduler cfg envs emptyState).1.download_speeds).length
        = min envs.length MAX_POINTS ∧
    (∀ (d : List ℚ) (x : ℚ), d.length = MAX_POINTS →
      dequeAppend MAX_POINTS d x = d.tail ++ [x]) := by
  have h := run_scheduler_histories cfg envs emptyState hok
  have h1 : history (run_scheduler cfg envs emptyState).1 =
      (lastN MAX_POINTS (envs.map CycleEnv.now),
       lastN MAX_POINTS (envs.map cycleDownload),
       lastN MAX_POINTS (envs.map cycleUpload),
       lastN MAX_POINTS (envs.map cyclePing)) := by
    rw [h]
    simp only [emptyState]
    rw [dequeExtend_lastN, dequeExtend_lastN, dequeExtend_lastN, dequeExtend_lastN]
  refine ⟨h1, ?_, fun d x hd => dequeAppend_full d x hd⟩
  have hd := congrArg (fun t => t.2.1) h1
  simp only [history] at hd
  rw [hd, lastN_length, List.length_map]

theorem C1_witness :
    (∀ e ∈ [envOkA, envOkB], e.resolution ≠ none ∧ e.probe ≠ none) ∧
    (history (run_scheduler cfgBest [envOkA, envOkB] emptyState).1 =
      (lastN MAX_POINTS ([envOkA, envOkB].map CycleEnv.now),
       lastN MAX_POINTS ([envOkA, envOkB].map cycleDownload),
       lastN MAX_POINTS ([envOkA, envOkB].map cycleUpload),
       lastN MAX_POINTS ([envOkA, envOkB].map cyclePing)) ∧
     ((run_scheduler cfgBest [envOkA, envOkB] emptyState).1.download_speeds).length
        = min ([envOkA, envOkB] : List CycleEnv).length MAX_POINTS ∧
     (∀ (d : List ℚ) (x : ℚ), d.length = MAX_POINTS →
       dequeAppend MAX_POINTS d x = d.tail ++ [x])) :=
  ⟨by decide, C1_rolling_history_fifo cfgBest [envOkA, envOkB] (by decide)⟩

/-- C2: a failed cycle (resolution or probe failure) records no Measurement,
leaves the state untouched, logs the failure, returns `False` without raising,
and the scheduler loop serves every subsequent tick normally. -/
theorem C2_failed_cycle_no_effects (cfg : Config) (env : CycleEnv)
    (s : MonitorState) (hfail : env.resolution = none ∨ env.probe = none) :
    run_speed_test cfg env s = (false, s, [Event.resolveCall, Event.cycleError]) ∧
    (∀ rest : List CycleEnv,
      run_scheduler cfg (env :: rest) s =
        ((run_scheduler cfg rest s).1, false :: (run_scheduler cfg rest s).2)) ∧
    (∀ (envs : List CycleEnv) (s0 : MonitorState),
      (run_scheduler cfg envs s0).2.length = envs.length) := by
  have h := run_speed_test_failure cfg env s hfail
  refine ⟨h, fun rest => ?_, fun envs s0 => run_scheduler_length cfg envs s0⟩
  simp only [run_scheduler]
  rw [h]

theorem C2_witness :
    (envProbeFail.resolution = none ∨ envProbeFail.probe = none) ∧
    (run_speed_test cfgBest envProbeFail emptyState =
        (false, emptyState, [Event.resolveCall, Event.cycleError]) ∧
     (∀ rest : List CycleEnv,
       run_scheduler cfgBest (envProbeFail :: rest) emptyState =
         ((run_scheduler cfgBest rest emptyState).1,
           false :: (run_scheduler cfgBest rest emptyState).2)) ∧
     (∀ (envs : List CycleEnv) (s0 : MonitorState),
       (run_scheduler cfgBest envs s0).2.length = envs.length)) :=
  ⟨Or.inr rfl, C2_failed_cycle_no_effects cfgBest envProbeFail emptyState (Or.inr rfl)⟩

/-- C3 counterexample: in a scheduled cycle under the best-server policy whose
resolution fails, the underlying directory call is made exactly once — not the
1 + maxRetries = 4 times the claim's retry policy would require. -/
theorem C3_counterexample :
    ((run_speed_test cfgBest envResFail emptyState).2.2.count Event.resolveCall = 1) ∧
    ((run_speed_test cfgBest envResFail emptyState).2.2.count Event.resolveCall ≠ 1 + 3) := by
  decide

/-- C3 amended: a scheduled cycle attempts endpoint resolution exactly once —
on failure the error is logged once and the cycle is skipped, with no retry and
no delay; the retry-up-to-three-times-with-a-5-second-delay behaviour belongs
to the GUI's server-list loading (`load_servers`), which under persistent
failure runs 4 attempts (1 + max_retries) each rescheduled 5000 ms later. -/
theorem C3_resolution_single_attempt (cfg : Config) (env : CycleEnv)
    (s : MonitorState) (_hbest : cfg.server_id = none)
    (hfail : env.resolution = none) :
    (run_speed_test cfg env s).1 = false ∧
    (run_speed_test cfg env s).2.1 = s ∧
    (run_speed_test cfg env s).2.2.count Event.resolveCall = 1 ∧
    (run_speed_test cfg env s).2.2.count Event.cycleError = 1 ∧
    (∀ outcome : ℕ → Bool, (∀ k, outcome k = false) →
      load_servers outcome =
        { attempts := 4, delaysMs := [5000, 5000, 5000], success := false }) ∧
    (∀ outcome : ℕ → Bool, outcome 0 = true →
      load_servers outcome = { attempts := 1, delaysMs := [], success := true }) := by
  have h := run_speed_test_failure cfg env s (Or.inl hfail)
  rw [h]
  refine ⟨rfl, rfl, rfl, rfl, ?_, ?_⟩
  · intro outcome hout
    simp [load_servers, load_servers_go, hout]
  · intro outcome hout
    simp [load_servers, load_servers_go, hout]

theorem C3_witness :
    cfgBest.server_id = none ∧ envResFail.resolution = none ∧
    ((run_speed_test cfgBest envResFail emptyState).1 = false ∧
     (run_speed_test cfgBest envResFail emptyState).2.1 = emptyState ∧
     (run_speed_test cfgBest envResFail emptyState).2.2.count Event.resolveCall = 1 ∧
     (run_speed_test cfgBest envResFail emptyState).2.2.count Event.cycleError = 1 ∧
     (∀ outcome : ℕ → Bool, (∀ k, outcome k = false) →
       load_servers outcome =
         { attempts := 4, delaysMs := [5000, 5000, 5000], success := false }) ∧
     (∀ outcome : ℕ → Bool, outcome 0 = true →
       load_servers outcome = { attempts := 1, delaysMs := [], success := true })) :=
  ⟨rfl, rfl, C3_resolution_single_attempt cfgBest envResFail emptyState rfl rfl⟩

/-- The state of a freshly constructed monitor hydrating from the files left
behind by `st`: empty deques, then `load_existing_data`. -/
def loadedFrom (st : MonitorState) : MonitorState :=
  load_existing_data
    { emptyState with csv_file := st.csv_file, json_file := st.json_file }

/-- C4 counterexample: two Measurements that differ only in server identity
produce identical hydrated states — the loader restores no server fields —
and a Measurement persisted only to the structured sink is not loaded at all,
so the written and loaded records cannot agree for both sink types. -/
theorem C4_counterexample :
    (history (loadedFrom (save_results cfgBest envWrite measA
          (initialize_output_files cfgBest emptyState)).1) =
        history (loadedFrom (save_results cfgBest envWrite measB
          (initialize_output_files cfgBest emptyState)).1) ∧
      measA.server ≠ measB.server) ∧
    (loadedFrom (save_results cfgJsonOnly envWrite measA
          (initialize_output_files cfgJsonOnly emptyState)).1).download_speeds
      = [] := by
  decide

theorem load_existing_data_json_independent (s : MonitorState)
    (j : Option JsonDoc) :
    load_existing_data { s with json_file := j } =
      { load_existing_data s with json_file := j } := by
  obtain ⟨ts, dl, ul, pg, cf, jf⟩ := s
  unfold load_existing_data
  rcases cf with _ | rows
  · rfl
  · simp only
    split <;> rfl

theorem read_csv_df_rows (ms : List Measurement) :
    read_csv_df (CsvRow.header ::
        ms.map fun m => CsvRow.data (csvRowOf m)) = ms.map csvRowOf := by
  unfold read_csv_df
  simp only [List.drop_succ_cons, List.drop_zero, List.filterMap_map]
  have : csvDataOf ∘ (fun m => CsvRow.data (csvRowOf m)) = some ∘ csvRowOf := rfl
  rw [this, List.filterMap_eq_map]

theorem lastN_lastN (n : ℕ) (l : List α) : lastN n (lastN n l) = lastN n l := by
  apply lastN_of_le
  rw [lastN_length]
  omega

theorem lastN_map (n : ℕ) (f : α → β) (l : List α) :
    (lastN n l).map f = lastN n (l.map f) := by
  simp [lastN, List.map_drop, List.length_map]

theorem save_to_csv_file (env : CycleEnv) (m : Measurement) (s : MonitorState)
    (hnf : env.csvIOFails = false) (rows : List CsvRow)
    (h : s.csv_file = some rows) :
    (save_to_csv env m s).1.csv_file =
      some (rows ++ [CsvRow.data (csvRowOf m)]) := by
  simp [save_to_csv, hnf, h]

theorem foldl_save_to_csv_file (env : CycleEnv) (hnf : env.csvIOFails = false)
    (ms : List Measurement) (s : MonitorState) (rows : List CsvRow)
    (h : s.csv_file = some rows) :
    (ms.foldl (fun st m => (save_to_csv env m st).1) s).csv_file =
      some (rows ++ ms.map fun m => CsvRow.data (csvRowOf m)) := by
  induction ms generalizing s rows with
  | nil => simpa using h
  | cons m rest ih =>
      simp only [List.foldl_cons, List.map_cons]
      rw [ih _ _ (save_to_csv_file env m s hnf rows h)]
      simp

/-- C4 amended: a Measurement appended to the tabular sink and loaded at a
restart yields exactly equal timestamp and numeric fields (the tabular writer
stores raw values, so equality is exact, a fortiori within the rounding
tolerance); the loader reads only the tabular sink — it is independent of the
structured sink's contents — and restores no server identity fields. -/
theorem C4_tabular_roundtrip (ms : List Measurement) (env : CycleEnv)
    (hnf : env.csvIOFails = false) :
    history (loadedFrom (ms.foldl (fun st m => (save_to_csv env m st).1)
        (initialize_output_files cfgBest emptyState))) =
      (lastN MAX_POINTS (ms.map Measurement.timestamp),
       lastN MAX_POINTS (ms.map Measurement.download_speed),
       lastN MAX_POINTS (ms.map Measurement.upload_speed),
       lastN MAX_POINTS (ms.map Measurement.ping)) ∧
    (∀ (s : MonitorState) (j : Option JsonDoc),
      load_existing_data { s with json_file := j } =
        { load_existing_data s with json_file := j }) := by
  refine ⟨?_, load_existing_data_json_independent⟩
  have hinit : (initialize_output_files cfgBest emptyState).csv_file =
      some [CsvRow.header] := rfl
  have hfile := foldl_save_to_csv_file env hnf ms _ [CsvRow.header] hinit
  rw [List.singleton_append] at hfile
  unfold loadedFrom
  rw [hfile]
  rcases ms with _ | ⟨m, rest⟩
  · simp [load_existing_data, read_csv_df, emptyState, lastN, history, csvDataOf]
  · unfold load_existing_data
    simp only [read_csv_df_rows]
    rw [if_neg (by simp)]
    simp only [history, emptyState]
    rw [dequeExtend_lastN, dequeExtend_lastN, dequeExtend_lastN, dequeExtend_lastN,
      lastN_map, lastN_map, lastN_map, lastN_map,
      lastN_lastN, lastN_lastN, lastN_lastN, lastN_lastN,
      List.map_map, List.map_map, List.map_map, List.map_map]
    rfl

theorem C4_witness :
    envWrite.csvIOFails = false ∧
    (history (loadedFrom ([measA].foldl (fun st m => (save_to_csv envWrite m st).1)
        (initialize_output_files cfgBest emptyState))) =
      (lastN MAX_POINTS ([measA].map Measurement.timestamp),
       lastN MAX_POINTS ([measA].map Measurement.download_speed),
       lastN MAX_POINTS ([measA].map Measurement.upload_speed),
       lastN MAX_POINTS ([measA].map Measurement.ping)) ∧
     (∀ (s : MonitorState) (j : Option JsonDoc),
       load_existing_data { s with json_file := j } =
         { load_existing_data s with json_file := j })) :=
  ⟨rfl, C4_tabular_roundtrip [measA] envWrite rfl⟩

/-- C5: `initialize_output_files` is idempotent, never duplicates a header or
truncates an existing file, and creates each requested sink with its
header/skeleton exactly when absent; the same holds for the create-if-absent
initialisation in myspeedtest.py's `main`. -/
theorem C5_initialize_idempotent (cfg : Config) (s : MonitorState) :
    initialize_output_files cfg (initialize_output_files cfg s) =
      initialize_output_files cfg s ∧
    (∀ rows, s.csv_file = some rows →
      (initialize_output_files cfg s).csv_file = some rows) ∧
    (∀ doc, s.json_file = some doc →
      (initialize_output_files cfg s).json_file = some doc) ∧
    (s.csv_file = none → "csv" ∈ cfg.output_formats →
      (initialize_output_files cfg s).csv_file = some [CsvRow.header]) ∧
    (s.json_file = none → "json" ∈ cfg.output_formats →
      (initialize_output_files cfg s).json_file = some { speed_tests := [] }) ∧
    (∀ f, myspeedtest_init_csv (myspeedtest_init_csv f) = myspeedtest_init_csv f) ∧
    (∀ rows, myspeedtest_init_csv (some rows) = some rows) := by
  obtain ⟨ts, dl, ul, pg, cf, jf⟩ := s
  refine ⟨?_, ?_, ?_, ?_, ?_, ?_, ?_⟩
  · by_cases hc : "csv" ∈ cfg.output_formats <;>
      by_cases hj : "json" ∈ cfg.output_formats <;>
        rcases cf with _ | rows <;> rcases jf with _ | doc <;>
          simp [initialize_output_files, hc, hj]
  · intro rows h
    by_cases hc : "csv" ∈ cfg.output_formats <;>
      by_cases hj : "json" ∈ cfg.output_formats <;>
        rcases jf with _ | doc <;>
          simp_all [initialize_output_files]
  · intro doc h
    by_cases hc : "csv" ∈ cfg.output_formats <;>
      by_cases hj : "json" ∈ cfg.output_formats <;>
        rcases cf with _ | rows <;>
          simp_all [initialize_output_files]
  · intro h hc
    by_cases hj : "json" ∈ cfg.output_formats <;>
      rcases jf with _ | doc <;>
        simp_all [initialize_output_files]
  · intro h hj
    by_cases hc : "csv" ∈ cfg.output_formats <;>
      rcases cf with _ | rows <;>
        simp_all [initialize_output_files]
  · intro f
    rcases f with _ | rows <;> rfl
  · intro rows
    rfl

theorem C5_witness :
    (initialize_output_files cfgBest (initialize_output_files cfgBest emptyState) =
      initialize_output_files cfgBest emptyState) ∧
    (∀ rows, emptyState.csv_file = some rows →
      (initialize_output_files cfgBest emptyState).csv_file = some rows) ∧
    (∀ doc, emptyState.json_file = some doc →
      (initialize_output_files cfgBest emptyState).json_file = some doc) ∧
    (emptyState.csv_file = none → "csv" ∈ cfgBest.output_formats →
      (initialize_output_files cfgBest emptyState).csv_file = some [CsvRow.header]) ∧
    (emptyState.json_file = none → "json" ∈ cfgBest.output_formats →
      (initialize_output_files cfgBest emptyState).json_file =
        some { speed_tests := [] }) ∧
    (∀ f, myspeedtest_init_csv (myspeedtest_init_csv f) = myspeedtest_init_csv f) ∧
    (∀ rows, myspeedtest_init_csv (some rows) = some rows) :=
  C5_initialize_idempotent cfgBest emptyState

/-- C6 counterexample: constructing the monitor with a non-positive interval
and an empty output-format set succeeds — no `ConfigError` is raised at
startup, contradicting the claim that such configurations are fatal. -/
theorem C6_counterexample :
    ∃ r, speedTestMonitorInit none 0 [] false none none = Except.ok r :=
  ⟨_, rfl⟩

/-- C6 amended: construction validates nothing — for every server id, every
interval (positive or not) and every output-format list (empty or not) it
succeeds whenever output-file initialisation raises no I/O error, and an I/O
error there is the only way construction fails. -/
theorem C6_no_config_validation (sid : Option Int) (iv : Int)
    (fmts : List String) (csvD : Option (List CsvRow)) (jsonD : Option JsonDoc) :
    (∃ r, speedTestMonitorInit sid iv fmts false csvD jsonD = Except.ok r) ∧
    (∃ msg, speedTestMonitorInit sid iv fmts true csvD jsonD = Except.error msg) :=
  ⟨⟨_, rfl⟩, ⟨_, rfl⟩⟩

def envCsvFail : CycleEnv :=
  { resolution := some srvA, probe := some (1000000, 2000000, 3)
    now := "t", nowMinute := "t", csvIOFails := true, jsonIOFails := false }

/-- C7: with both sinks active, `save_results` writes to every sink; a
failure in one sink is logged (its error event) and neither prevents the
other sink's write nor fails the enclosing measurement cycle. -/
theorem C7_sink_failure_isolated (cfg : Config) (env : CycleEnv)
    (data : Measurement) (s : MonitorState)
    (hcsv : "csv" ∈ cfg.output_formats) (hjson : "json" ∈ cfg.output_formats) :
    (env.csvIOFails = true → env.jsonIOFails = false →
      (save_results cfg env data s).1.csv_file = s.csv_file ∧
      (save_results cfg env data s).1.json_file =
        some { speed_tests :=
          ((s.json_file).getD { speed_tests := [] }).speed_tests
            ++ [jsonRecordOf data] } ∧
      (save_results cfg env data s).2 = [Event.csvError, Event.jsonWrite]) ∧
    (env.csvIOFails = false → env.jsonIOFails = true →
      (save_results cfg env data s).1.json_file = s.json_file ∧
      (save_results cfg env data s).1.csv_file =
        some ((s.csv_file).getD [] ++ [CsvRow.data (csvRowOf data)]) ∧
      (save_results cfg env data s).2 = [Event.csvWrite, Event.jsonError]) ∧
    (env.csvIOFails = false → env.jsonIOFails = false →
      (save_results cfg env data s).2 = [Event.csvWrite, Event.jsonWrite]) ∧
    (∀ (srv : Server) (p : ℚ × ℚ × ℚ), env.resolution = some srv →
      env.probe = some p → (run_speed_test cfg env s).1 = true) := by
  obtain ⟨ts, dl, ul, pg, cf, jf⟩ := s
  refine ⟨?_, ?_, ?_,
    fun srv p h1 h2 => (run_speed_test_success cfg env _ srv p h1 h2).1⟩
  · intro hc hj
    rcases cf with _ | rows <;>
      simp [save_results, save_to_csv, save_to_json, hc, hj, hcsv, hjson]
  · intro hc hj
    rcases cf with _ | rows <;>
      simp [save_results, save_to_csv, save_to_json, hc, hj, hcsv, hjson]
  · intro hc hj
    rcases cf with _ | rows <;>
      simp [save_results, save_to_csv, save_to_json, hc, hj, hcsv, hjson]

theorem C7_witness :
    "csv" ∈ cfgBest.output_formats ∧ "json" ∈ cfgBest.output_formats ∧
    ((envCsvFail.csvIOFails = true → envCsvFail.jsonIOFails = false →
      (save_results cfgBest envCsvFail measA emptyState).1.csv_file =
        emptyState.csv_file ∧
      (save_results cfgBest envCsvFail measA emptyState).1.json_file =
        some { speed_tests :=
          ((emptyState.json_file).getD { speed_tests := [] }).speed_tests
            ++ [jsonRecordOf measA] } ∧
      (save_results cfgBest envCsvFail measA emptyState).2 =
        [Event.csvError, Event.jsonWrite]) ∧
     (envCsvFail.csvIOFails = false → envCsvFail.jsonIOFails = true →
      (save_results cfgBest envCsvFail measA emptyState).1.json_file =
        emptyState.json_file ∧
      (save_results cfgBest envCsvFail measA emptyState).1.csv_file =
        some ((emptyState.csv_file).getD [] ++ [CsvRow.data (csvRowOf measA)]) ∧
      (save_results cfgBest envCsvFail measA emptyState).2 =
        [Event.csvWrite, Event.jsonError]) ∧
     (envCsvFail.csvIOFails = false → envCsvFail.jsonIOFails = false →
      (save_results cfgBest envCsvFail measA emptyState).2 =
        [Event.csvWrite, Event.jsonWrite]) ∧
     (∀ (srv : Server) (p : ℚ × ℚ × ℚ), envCsvFail.resolution = some srv →
       envCsvFail.probe = some p →
       (run_speed_test cfgBest envCsvFail emptyState).1 = true)) :=
  ⟨by decide, by decide,
    C7_sink_failure_isolated cfgBest envCsvFail measA emptyState
      (by decide) (by decide)⟩

/-- C8 counterexample: a state with two in-flight measurements is reachable —
the initial run started by `start()` on the calling thread is still
outstanding at t = 600 s when the first scheduled cycle fires on the
scheduler thread (interval 600 s), so single-flight is not guaranteed. -/
theorem C8_counterexample :
    ∃ s, SessionReachable 600 (initSession 600) s ∧ twoInFlight s := by
  refine ⟨{ now := 0 + 600, mainPhase := MainPhase.probing (0 + 10000),
            schedPhase := SchedPhase.probing (0 + 600 + 50), nextRun := 600 },
    ?_, ⟨_, rfl⟩, ⟨_, rfl⟩⟩
  have h1 : SessionStep 600 (initSession 600)
      { now := 0, mainPhase := MainPhase.probing (0 + 10000),
        schedPhase := SchedPhase.idle, nextRun := 600 } :=
    SessionStep.mainStart _ 10000 rfl
  have h2 : SessionReachable 600
      { now := 0, mainPhase := MainPhase.probing (0 + 10000),
        schedPhase := SchedPhase.idle, nextRun := 600 }
      { now := 0 + 600, mainPhase := MainPhase.probing (0 + 10000),
        schedPhase := SchedPhase.idle, nextRun := 600 } :=
    sessionReachable_tickN 600 _ 600
  have h3 : SessionStep 600
      { now := 0 + 600, mainPhase := MainPhase.probing (0 + 10000),
        schedPhase := SchedPhase.idle, nextRun := 600 }
      { now := 0 + 600, mainPhase := MainPhase.probing (0 + 10000),
        schedPhase := SchedPhase.probing (0 + 600 + 50), nextRun := 600 } :=
    SessionStep.schedFire _ 50 rfl (by simp)
  exact Relation.ReflTransGen.head h1 (Relation.ReflTransGen.tail h2 h3)

/-- C8 amended: the scheduler thread runs scheduled cycles one at a time and
no scheduled probe starts before one full interval has elapsed, but the
initial run started by `start()` executes on the calling thread with no
single-flight guard, so a state with two overlapping in-flight measurements
(initial plus scheduled) is reachable for every interval. -/
theorem C8_overlap_initial_vs_scheduled (i : ℕ) :
    (∃ s, SessionReachable i (initSession i) s ∧ twoInFlight s) ∧
    (∀ s, SessionReachable i (initSession i) s →
      i ≤ s.nextRun ∧ (schedInFlight s → i ≤ s.now)) := by
  constructor
  · refine ⟨{ now := 0 + i, mainPhase := MainPhase.probing (0 + (i + 1)),
              schedPhase := SchedPhase.probing (0 + i + 0), nextRun := i },
      ?_, ⟨_, rfl⟩, ⟨_, rfl⟩⟩
    have h1 : SessionStep i (initSession i)
        { now := 0, mainPhase := MainPhase.probing (0 + (i + 1)),
          schedPhase := SchedPhase.idle, nextRun := i } :=
      SessionStep.mainStart _ (i + 1) rfl
    have h2 : SessionReachable i
        { now := 0, mainPhase := MainPhase.probing (0 + (i + 1)),
          schedPhase := SchedPhase.idle, nextRun := i }
        { now := 0 + i, mainPhase := MainPhase.probing (0 + (i + 1)),
          schedPhase := SchedPhase.idle, nextRun := i } :=
      sessionReachable_tickN i _ i
    have h3 : SessionStep i
        { now := 0 + i, mainPhase := MainPhase.probing (0 + (i + 1)),
          schedPhase := SchedPhase.idle, nextRun := i }
        { now := 0 + i, mainPhase := MainPhase.probing (0 + (i + 1)),
          schedPhase := SchedPhase.probing (0 + i + 0), nextRun := i } :=
      SessionStep.schedFire _ 0 rfl (by simp)
    exact Relation.ReflTransGen.head h1 (Relation.ReflTransGen.tail h2 h3)
  · intro s hs
    induction hs with
    | refl =>
        refine ⟨le_refl i, fun h => ?_⟩
        obtain ⟨t, ht⟩ := h
        exact absurd ht (by simp [initSession])
    | tail hreach hstep ih =>
        cases hstep with
        | tick =>
            exact ⟨ih.1, fun h => Nat.le_succ_of_le (ih.2 h)⟩
        | mainStart d hm => exact ih
        | mainFinish t hm hle => exact ih
        | schedFire d hidle hdue =>
            exact ⟨ih.1, fun _ => le_trans ih.1 hdue⟩
        | schedFinish t hp hle =>
            refine ⟨Nat.le_add_left i _, fun h => ?_⟩
            obtain ⟨t2, ht2⟩ := h
            exact absurd ht2 (by simp)

theorem foldl_save_to_json (env : CycleEnv) (hnf : env.jsonIOFails = false)
    (ms : List Measurement) :
    ∀ (s : MonitorState) (doc : JsonDoc), s.json_file = some doc →
      (ms.foldl (fun st m => (save_to_json env m st).1) s).json_file =
        some { speed_tests := doc.speed_tests ++ ms.map jsonRecordOf } := by
  induction ms with
  | nil =>
      intro s doc h
      simpa using h
  | cons m rest ih =>
      intro s doc h
      simp only [List.foldl_cons, List.map_cons]
      have hstep : (save_to_json env m s).1.json_file =
          some { speed_tests := doc.speed_tests ++ [jsonRecordOf m] } := by
        simp [save_to_json, hnf, h]
      rw [ih _ _ hstep]
      simp

/-- C9: every append to the structured sink targets the document under the
top-level `speed_tests` key, preserves all previously stored records in
order, and adds one record whose timestamp and server identity are copied
verbatim and whose speeds and ping are the roundings to 2 (resp. 1) decimals:
each stored value lies on the decimal grid and within half an ulp of the
measured value. -/
theorem C9_structured_sink_append (ms : List Measurement) (env : CycleEnv)
    (doc : JsonDoc) (s : MonitorState) (hnf : env.jsonIOFails = false)
    (hdoc : s.json_file = some doc) :
    (ms.foldl (fun st m => (save_to_json env m st).1) s).json_file =
      some { speed_tests := doc.speed_tests ++ ms.map jsonRecordOf } ∧
    (∀ m : Measurement,
      (jsonRecordOf m).timestamp = m.timestamp ∧
      (jsonRecordOf m).server = m.server ∧
      (jsonRecordOf m).download_speed * 10 ^ 2 =
        ((roundHalfEven (m.download_speed * 10 ^ 2) : ℤ) : ℚ) ∧
      (jsonRecordOf m).upload_speed * 10 ^ 2 =
        ((roundHalfEven (m.upload_speed * 10 ^ 2) : ℤ) : ℚ) ∧
      (jsonRecordOf m).ping * 10 ^ 1 =
        ((roundHalfEven (m.ping * 10 ^ 1) : ℤ) : ℚ) ∧
      |(jsonRecordOf m).download_speed - m.download_speed| ≤ 1 / 200 ∧
      |(jsonRecordOf m).upload_speed - m.upload_speed| ≤ 1 / 200 ∧
      |(jsonRecordOf m).ping - m.ping| ≤ 1 / 20) := by
  refine ⟨foldl_save_to_json env hnf ms s doc hdoc, fun m => ?_⟩
  refine ⟨rfl, rfl, pyRound_grid 2 _, pyRound_grid 2 _, pyRound_grid 1 _,
    ?_, ?_, ?_⟩
  · have h := pyRound_abs_le 2 m.download_speed
    norm_num at h
    exact h
  · have h := pyRound_abs_le 2 m.upload_speed
    norm_num at h
    exact h
  · have h := pyRound_abs_le 1 m.ping
    norm_num at h
    exact h

theorem C9_witness :
    envWrite.jsonIOFails = false ∧
    (initialize_output_files cfgJsonOnly emptyState).json_file =
      some { speed_tests := [] } ∧
    (([measA].foldl (fun st m => (save_to_json envWrite m st).1)
        (initialize_output_files cfgJsonOnly emptyState)).json_file =
      some { speed_tests :=
        ({ speed_tests := [] } : JsonDoc).speed_tests
          ++ [measA].map jsonRecordOf } ∧
     (∀ m : Measurement,
       (jsonRecordOf m).timestamp = m.timestamp ∧
       (jsonRecordOf m).server = m.server ∧
       (jsonRecordOf m).download_speed * 10 ^ 2 =
         ((roundHalfEven (m.download_speed * 10 ^ 2) : ℤ) : ℚ) ∧
       (jsonRecordOf m).upload_speed * 10 ^ 2 =
         ((roundHalfEven (m.upload_speed * 10 ^ 2) : ℤ) : ℚ) ∧
       (jsonRecordOf m).ping * 10 ^ 1 =
         ((roundHalfEven (m.ping * 10 ^ 1) : ℤ) : ℚ) ∧
       |(jsonRecordOf m).download_speed - m.download_speed| ≤ 1 / 200 ∧
       |(jsonRecordOf m).upload_speed - m.upload_speed| ≤ 1 / 200 ∧
       |(jsonRecordOf m).ping - m.ping| ≤ 1 / 20)) :=
  ⟨rfl, rfl,
    C9_structured_sink_append [measA] envWrite { speed_tests := [] }
      (initialize_output_files cfgJsonOnly emptyState) rfl rfl⟩

/-- C10: on a successful probe the new measurement is appended to the rolling
history strictly before any sink write is attempted (the history-append event
precedes every sink event in the cycle's trace), and sink failures never roll
it back: even when every sink write fails the cycle still returns success,
the files are untouched, and the measurement is in the history the view
reads. -/
theorem C10_history_before_sinks (cfg : Config) (env : CycleEnv)
    (s : MonitorState) (srv : Server) (p : ℚ × ℚ × ℚ)
    (hres : env.resolution = some srv) (hprobe : env.probe = some p) :
    (run_speed_test cfg env s).1 = true ∧
    history (run_speed_test cfg env s).2.1 =
      (dequeAppend MAX_POINTS s.timestamps env.now,
       dequeAppend MAX_POINTS s.download_speeds (p.1 / 1000000),
       dequeAppend MAX_POINTS s.upload_speeds (p.2.1 / 1000000),
       dequeAppend MAX_POINTS s.pings p.2.2) ∧
    (∃ sinkEvs, (run_speed_test cfg env s).2.2 =
        Event.resolveCall :: Event.historyAppend :: sinkEvs ∧
        Event.historyAppend ∉ sinkEvs) ∧
    (env.csvIOFails = true → env.jsonIOFails = true →
      (run_speed_test cfg env s).2.1.csv_file = s.csv_file ∧
      (run_speed_test cfg env s).2.1.json_file = s.json_file) := by
  have hsucc := run_speed_test_success cfg env s srv p hres hprobe
  refine ⟨hsucc.1, hsucc.2, ?_, ?_⟩
  · unfold run_speed_test run_speed_test_body
    rw [hres, hprobe]
    exact ⟨_, rfl, save_results_no_history_event cfg env _ _⟩
  · intro hc hj
    unfold run_speed_test run_speed_test_body
    rw [hres, hprobe]
    by_cases hcm : "csv" ∈ cfg.output_formats <;>
      by_cases hjm : "json" ∈ cfg.output_formats <;>
        simp [save_results, save_to_csv, save_to_json, hc, hj, hcm, hjm]

theorem C10_witness :
    envSinksFail.resolution = some srvA ∧
    envSinksFail.probe = some (1000000, 2000000, 3) ∧
    ((run_speed_test cfgBest envSinksFail emptyState).1 = true ∧
     history (run_speed_test cfgBest envSinksFail emptyState).2.1 =
       (dequeAppend MAX_POINTS emptyState.timestamps envSinksFail.now,
        dequeAppend MAX_POINTS emptyState.download_speeds
          ((1000000 : ℚ) / 1000000),
        dequeAppend MAX_POINTS emptyState.upload_speeds
          ((2000000 : ℚ) / 1000000),
        dequeAppend MAX_POINTS emptyState.pings (3 : ℚ)) ∧
     (∃ sinkEvs, (run_speed_test cfgBest envSinksFail emptyState).2.2 =
         Event.resolveCall :: Event.historyAppend :: sinkEvs ∧
         Event.historyAppend ∉ sinkEvs) ∧
     (envSinksFail.csvIOFails = true → envSinksFail.jsonIOFails = true →
       (run_speed_test cfgBest envSinksFail emptyState).2.1.csv_file =
         emptyState.csv_file ∧
       (run_speed_test cfgBest envSinksFail emptyState).2.1.json_file =
         emptyState.json_file)) :=
  ⟨rfl, rfl, C10_history_before_sinks cfgBest envSinksFail emptyState srvA
    (1000000, 2000000, 3) rfl rfl⟩

end SpeedTest
